import Mathlib

set_option maxRecDepth 8000

/-!
Shallow embedding of the docket-statistics engine of TJGO_Projeto6_TxCong
(`src/util.py` and `src/util_copy.py`), with the claims of the
natural-language specification settled as theorems.

Conventions of the embedding:
* A pandas DataFrame of case records becomes `List CaseRecord`; a missing
  (`NaT`) date becomes `none`, and every date comparison on `none` is
  `false`, matching pandas semantics for `NaT`.
* Counts (`groupby(...).size()`) become `List.length` of `List.filter`.
* Float arithmetic of the rate is modelled over `ℚ`; `np.round(_, 2)` and
  Python `round(_, 2)` both round half to even, modelled by `roundHalfEven`.
* Group keys of the `pd.concat(axis=1)` of the four groupbys are the sorted
  union of the groups' keys, modelled by an insertion sort over the
  deduplicated key list (the keys are distinct, so any sorting algorithm
  yields the same list).
-/

namespace TxCong

/-- A calendar date as produced by `pd.to_datetime`. Only the year and the
lexicographic order on (year, month, day) are used by the engine. -/
structure Date where
  year : Int
  month : Nat
  day : Nat
deriving DecidableEq, Repr

/-- Lexicographic `≤` on dates, as used by `data_distribuicao >= START`. -/
def dateLE (a b : Date) : Bool :=
  decide (a.year < b.year) ||
    (decide (a.year = b.year) &&
      (decide (a.month < b.month) ||
        (decide (a.month = b.month) && decide (a.day ≤ b.day))))

/-- One row of the loaded record store (`self.df` of `util.py`), after the
loader's date parsing: unparseable dates are `none`. -/
structure CaseRecord where
  processo_id : Nat
  comarca : String
  serventia : String
  nome_area_acao : String
  data_distribuicao : Option Date
  data_baixa : Option Date
deriving DecidableEq, Repr

/-- `data_distribuicao.dt.to_period('Y') <= ano` — false on `NaT`. -/
def distYearLE (r : CaseRecord) (ano : Int) : Bool :=
  match r.data_distribuicao with
  | some d => decide (d.year ≤ ano)
  | none => false

/-- `data_distribuicao.dt.to_period('Y') == ano` — false on `NaT`. -/
def distYearEq (r : CaseRecord) (ano : Int) : Bool :=
  match r.data_distribuicao with
  | some d => decide (d.year = ano)
  | none => false

/-- `data_baixa.dt.to_period('Y') <= ano` — false on `NaT`. -/
def baixaYearLE (r : CaseRecord) (ano : Int) : Bool :=
  match r.data_baixa with
  | some d => decide (d.year ≤ ano)
  | none => false

/-- `data_baixa.dt.to_period('Y') == ano` — false on `NaT`. -/
def baixaYearEq (r : CaseRecord) (ano : Int) : Bool :=
  match r.data_baixa with
  | some d => decide (d.year = ano)
  | none => false

/-- `data_distribuicao >= pd.Timestamp('2020-01-01')` — false on `NaT`. -/
def inWindow (r : CaseRecord) : Bool :=
  match r.data_distribuicao with
  | some d => dateLE ⟨2020, 1, 1⟩ d
  | none => false

/-- `.clip(lower=0)` / `max(x, 0)` on an integer. -/
def clip0 (x : Int) : Int := if x < 0 then 0 else x

/-- Round half to even, the rounding mode of `np.round` and Python `round`.
Computed on the numerator and denominator: `f` is the floor of `q`
(`Rat.floor_def`), `r / q.den` its fractional part, compared with `1/2` by
cross-multiplication. -/
def roundHalfEven (q : ℚ) : ℤ :=
  let f : ℤ := q.num / q.den
  let r : ℤ := q.num - f * q.den
  if 2 * r < (q.den : ℤ) then f
  else if (q.den : ℤ) < 2 * r then f + 1
  else if f % 2 = 0 then f else f + 1

/-- `round(x, 2)` / `np.round(x, 2)` over `ℚ`. -/
def round2 (q : ℚ) : ℚ := (roundHalfEven (q * 100) : ℚ) / 100

/-- Count of records distributed in a year `≤ ano` (cumulative flow). -/
def countDistAcum (l : List CaseRecord) (ano : Int) : Nat :=
  (l.filter (fun r => distYearLE r ano)).length

/-- Count of records resolved in a year `≤ ano` (cumulative flow). -/
def countBaixAcum (l : List CaseRecord) (ano : Int) : Nat :=
  (l.filter (fun r => baixaYearLE r ano)).length

/-- Count of records distributed exactly in year `ano`. -/
def countDistAno (l : List CaseRecord) (ano : Int) : Nat :=
  (l.filter (fun r => distYearEq r ano)).length

/-- Count of records resolved exactly in year `ano`. -/
def countBaixAno (l : List CaseRecord) (ano : Int) : Nat :=
  (l.filter (fun r => baixaYearEq r ano)).length

/-- The records of one `groupby(['nome_area_acao', 'comarca'])` group. -/
def groupOf (l : List CaseRecord) (key : String × String) : List CaseRecord :=
  l.filter (fun r => r.nome_area_acao == key.1 && r.comarca == key.2)

/-- One row of the result table of `calcular_estatisticas`. -/
structure StatRow where
  nome_area_acao : String
  comarca : String
  distribuidos : Nat
  baixados : Nat
  pendentes : Int
  taxa : ℚ
deriving DecidableEq, Repr

/-- Step 8/9 of `calcular_estatisticas` for a single group key: annual and
cumulative counts, clipped pending, and the congestion rate. -/
def mkRow (dff : List CaseRecord) (ano : Int) (key : String × String) : StatRow :=
  let da := groupOf dff key
  let dAno := countDistAno da ano
  let bAno := countBaixAno da ano
  let dAc := countDistAcum da ano
  let bAc := countBaixAcum da ano
  let pend : Int := clip0 ((dAc : Int) - (bAc : Int))
  { nome_area_acao := key.1, comarca := key.2,
    distribuidos := dAno, baixados := bAno, pendentes := pend,
    taxa :=
      if 0 < (pend : ℚ) + (bAno : ℚ) then
        round2 ((pend : ℚ) / ((pend : ℚ) + (bAno : ℚ)) * 100)
      else 0 }

/-- Step 11 of `calcular_estatisticas`: the TOTAL row, summing the group
rows and recomputing the rate from the summed pending and resolved. -/
def totalRow (rows : List StatRow) : StatRow :=
  let d := (rows.map (·.distribuidos)).sum
  let b := (rows.map (·.baixados)).sum
  let p := (rows.map (·.pendentes)).sum
  { nome_area_acao := "TOTAL", comarca := "",
    distribuidos := d, baixados := b, pendentes := p,
    taxa :=
      if 0 < (p : ℚ) + (b : ℚ) then
        round2 ((p : ℚ) / ((p : ℚ) + (b : ℚ)) * 100)
      else 0 }

/-- Insert with respect to a boolean `le` (helper of the insertion sort). -/
def insertLE (le : α → α → Bool) (k : α) : List α → List α
  | [] => [k]
  | x :: xs => if le k x then k :: x :: xs else x :: insertLE le k xs

/-- Insertion sort; models pandas' sorted index union / `sort_values`. -/
def insSort (le : α → α → Bool) : List α → List α
  | [] => []
  | x :: xs => insertLE le x (insSort le xs)

/-- Lexicographic order of a pandas MultiIndex on two string levels. -/
def keyLE (p q : String × String) : Bool :=
  decide (p.1 < q.1) || (decide (p.1 = q.1) && decide (p.2 ≤ q.2))

/-- The sorted union of the keys of the four groupbys of
`calcular_estatisticas` (the index of the `pd.concat(axis=1)`): keys of a
record with a distribution or a resolution in a year `≤ ano`. -/
def groupKeys (dff : List CaseRecord) (ano : Int) : List (String × String) :=
  insSort keyLE
    ((dff.filterMap (fun r =>
      if distYearLE r ano || baixaYearLE r ano then
        some (r.nome_area_acao, r.comarca)
      else none)).dedup)

/-- Step 1 of `calcular_estatisticas`: filter to the requested comarca. -/
def dfComarca (records : List CaseRecord) (comarca : String) : List CaseRecord :=
  records.filter (fun r => r.comarca == comarca)

/-- Step 2 of `calcular_estatisticas`: the reliability window
(`data_distribuicao >= 2020-01-01`) applied after the comarca filter. -/
def windowFilter (records : List CaseRecord) (comarca : String) : List CaseRecord :=
  (dfComarca records comarca).filter inWindow

/-- Steps 5–10 of `calcular_estatisticas`: the group rows (`df_final`
before the TOTAL row), one per key of the consolidated index. -/
def statRows (records : List CaseRecord) (comarca : String) (ano : Int) :
    List StatRow :=
  (groupKeys (windowFilter records comarca) ano).map
    (mkRow (windowFilter records comarca) ano)

/-- `ProcessosAnalisador.calcular_estatisticas` of `src/util.py`: filters,
groups, computes the cumulative-stock metrics and appends the TOTAL row;
returns the empty table on an empty store, an unknown comarca, or an empty
reliability window. -/
def calcular_estatisticas (records : List CaseRecord) (comarca : String)
    (ano : Int) : List StatRow :=
  if records.isEmpty then []
  else if (dfComarca records comarca).isEmpty then []
  else if (windowFilter records comarca).isEmpty then []
  else statRows records comarca ano ++ [totalRow (statRows records comarca ano)]

/-! ### Pre-aggregated path (`src/util_copy.py`) -/

/-- One row of the pre-aggregated CSV consumed by `util_copy.py`
(`tx_cong_anual_serv.csv`): already carries the annual counts and the rate
per (comarca, serventia, year). Numeric cells are modelled over `ℚ`
(`pd.to_numeric`). -/
structure PreRow where
  ano_ref : Int
  comarca : String
  serventia : String
  distribuidos : ℚ
  baixados : ℚ
  pendentes : ℚ
  taxa : ℚ
deriving DecidableEq, Repr

/-- One presentation row built by `obter_dados_filtrados`. -/
structure AprRow where
  serventia : String
  comarca : String
  distribuidos : ℚ
  baixados : ℚ
  pendentes : ℚ
  taxa : ℚ
deriving DecidableEq, Repr

/-- The column mapping of `obter_dados_filtrados` (all mapped columns of
`_mapear_colunas` assumed present in the CSV). -/
def toApr (r : PreRow) : AprRow :=
  { serventia := r.serventia, comarca := r.comarca,
    distribuidos := r.distribuidos, baixados := r.baixados,
    pendentes := r.pendentes, taxa := r.taxa }

/-- `sort_values('Serventia')` order. -/
def servLE (a b : AprRow) : Bool := decide (a.serventia ≤ b.serventia)

/-- The TOTAL row of `obter_dados_filtrados`: sums of the presentation
rows' numeric columns, rate recomputed from the summed pending/resolved. -/
def totalApr (apr : List AprRow) : AprRow :=
  let d := (apr.map (·.distribuidos)).sum
  let b := (apr.map (·.baixados)).sum
  let p := (apr.map (·.pendentes)).sum
  { serventia := "TOTAL", comarca := "",
    distribuidos := d, baixados := b, pendentes := p,
    taxa := if 0 < p + b then round2 (p / (p + b) * 100) else 0 }

/-- The presentation rows of `obter_dados_filtrados` before the TOTAL row:
filter by comarca and reference year, map the columns, sort by serventia. -/
def aprRows (rows : List PreRow) (comarca : String) (ano : Int) : List AprRow :=
  insSort servLE
    ((rows.filter (fun r => r.comarca == comarca && r.ano_ref == ano)).map toApr)

/-- `ProcessosAnalisador.obter_dados_filtrados` of `src/util_copy.py`:
filter by comarca and reference year, sort by serventia, append the TOTAL
row; empty input or an empty filter yields the empty table. (The year
filter compares the stored year with the selected one; `ano_ref` is
modelled as the integer year.) -/
def obter_dados_filtrados (rows : List PreRow) (comarca : String)
    (ano : Int) : List AprRow :=
  if rows.isEmpty then []
  else if (rows.filter (fun r => r.comarca == comarca && r.ano_ref == ano)).isEmpty
    then []
  else aprRows rows comarca ano ++ [totalApr (aprRows rows comarca ano)]

/-! ### Time-series builder (`plotar_graficos_comarca` of `src/util.py`) -/

/-- `str(comarca).strip().lower()`. -/
def normStr (s : String) : String := s.trim.toLower

/-- The record set the series is computed from: normalized comarca match,
then the reliability window. -/
def windowC (records : List CaseRecord) (comarca : String) : List CaseRecord :=
  (records.filter (fun r => normStr r.comarca == normStr comarca)).filter inWindow

/-- `pandas.unique` over a column: first-appearance order, no duplicates. -/
def uniqueAux (seen : List String) : List String → List String
  | [] => []
  | x :: xs => if x ∈ seen then uniqueAux seen xs else x :: uniqueAux (x :: seen) xs

/-- The distinct areas of the filtered set, in order of first appearance. -/
def uniqueOrder (l : List String) : List String := uniqueAux [] l

/-- `df_f['data_distribuicao'].dt.year.max()`. Every record of the window
has a distribution year `≥ 2020`, so folding from `2020` is the maximum. -/
def maxAnoDist (dff : List CaseRecord) : Int :=
  dff.foldl (fun m r =>
    match r.data_distribuicao with
    | some d => if m < d.year then d.year else m
    | none => m) 2020

/-- `list(range(2020, max_ano + 1))`. -/
def anosRange (dff : List CaseRecord) : List Int :=
  (List.range (maxAnoDist dff - 2020 + 1).toNat).map (fun i => 2020 + (i : Int))

/-- The records of one area (`df_f[df_f['nome_area_acao'] == area]`). -/
def groupArea (l : List CaseRecord) (area : String) : List CaseRecord :=
  l.filter (fun r => r.nome_area_acao == area)

/-- Pending stock of an area at the end of `ano` (clipped difference of the
cumulative flows), as computed inside the plotting loop. -/
def pendAt (dff : List CaseRecord) (area : String) (ano : Int) : Int :=
  clip0 ((countDistAcum (groupArea dff area) ano : Int) -
    (countBaixAcum (groupArea dff area) ano : Int))

/-- One point of the trend chart. -/
structure SeriesPoint where
  ano : Int
  nome_area_acao : String
  taxa : ℚ
deriving DecidableEq, Repr

/-- The rate computed inside the plotting loop (code computes the raw rate
under the zero-denominator guard, then rounds at emission). -/
def taxaAt (dff : List CaseRecord) (area : String) (ano : Int) : ℚ :=
  if 0 < (pendAt dff area ano : ℚ) + (countBaixAno (groupArea dff area) ano : ℚ)
  then
    (pendAt dff area ano : ℚ) /
      ((pendAt dff area ano : ℚ) + (countBaixAno (groupArea dff area) ano : ℚ)) *
      100
  else 0

/-- The inner loop of `plotar_graficos_comarca` for one area: one point per
year of the range, emitted only when `pendentes > 0 or baix_ano > 0`. -/
def pointsFor (dff : List CaseRecord) (anos : List Int) (area : String) :
    List SeriesPoint :=
  anos.filterMap (fun ano =>
    if 0 < pendAt dff area ano || 0 < countBaixAno (groupArea dff area) ano then
      some ⟨ano, area, round2 (taxaAt dff area ano)⟩
    else none)

/-- The full `dados_grafico` list of `plotar_graficos_comarca`: all areas in
first-appearance order, all years of the range. -/
def dadosGrafico (records : List CaseRecord) (comarca : String) :
    List SeriesPoint :=
  (uniqueOrder ((windowC records comarca).map (·.nome_area_acao))).flatMap
    (pointsFor (windowC records comarca) (anosRange (windowC records comarca)))

/-- The caller-visible outcome of `plotar_graficos_comarca`, keyed by the
figure's title: the three degenerate titles and the real chart. -/
inductive PlotResult where
  | semDados : PlotResult
  | semDadosComarca : PlotResult
  | dadosInsuficientes : PlotResult
  | grafico : List SeriesPoint → PlotResult
deriving DecidableEq, Repr

/-- `ProcessosAnalisador.plotar_graficos_comarca` of `src/util.py`, with the
figure abstracted to its point list / degenerate title. -/
def plotar_graficos_comarca (records : List CaseRecord) (comarca : String) :
    PlotResult :=
  if records.isEmpty then .semDados
  else if (records.filter (fun r => normStr r.comarca == normStr comarca)).isEmpty
    then .semDadosComarca
  else if (windowC records comarca).isEmpty then .semDadosComarca
  else if (dadosGrafico records comarca).isEmpty then .dadosInsuficientes
  else .grafico (dadosGrafico records comarca)

/-! ### Annual-Flow policy (spec §4.2) -/

/-- The metrics of the Annual-Flow policy for one scope. -/
structure AnnualStats where
  distributed : Nat
  resolved : Nat
  pending : Nat
  taxa : ℚ
deriving DecidableEq, Repr

/-- Modelled from the spec: the Annual-Flow accounting policy of §4.2. Its
implementation — the pipeline that produced the pre-aggregated annual CSV
(`Distribuidos_ano`/`Baixados_ano`/`Pendentes_ano`) consumed by
`util_copy.py` — is not under `src/`; only its output format is. Per the
spec: `Distributed(Y)` counts `distribution_year == Y`, `Resolved(Y)` counts
`resolution_year == Y`, `Pending(Y)` counts
`distribution_year == Y AND resolution_date absent`, and the rate is
`Pending / (Pending + Resolved) * 100` rounded to 2 decimals, `0.0` on a
zero denominator. -/
def annualFlow (records : List CaseRecord) (comarca : String) (ano : Int) :
    AnnualStats :=
  let dfc := dfComarca records comarca
  let distributed := countDistAno dfc ano
  let resolved := countBaixAno dfc ano
  let pending :=
    (dfc.filter (fun r => distYearEq r ano && r.data_baixa.isNone)).length
  { distributed, resolved, pending,
    taxa :=
      if 0 < (pending : ℚ) + (resolved : ℚ) then
        round2 ((pending : ℚ) / ((pending : ℚ) + (resolved : ℚ)) * 100)
      else 0 }

/-! ### Fixtures used by the counterexamples and witnesses -/

/-- C5 counterexample fixture: a case opened in 2021 and never resolved,
and a case opened and resolved in 2023 — all activity in 2021/2023. -/
def cexSeries : List CaseRecord :=
  [⟨1, "c", "s", "a", some ⟨2021, 2, 3⟩, none⟩,
   ⟨2, "c", "s", "a", some ⟨2023, 6, 7⟩, some ⟨2023, 8, 9⟩⟩]

/-- C8 counterexample fixture: a single case opened and resolved in
2020 — exactly one distinct year with data. -/
def cexOneYear : List CaseRecord :=
  [⟨1, "c", "s", "a", some ⟨2020, 3, 4⟩, some ⟨2020, 5, 6⟩⟩]

/-! ### Helper lemmas -/

lemma roundHalfEven_def (q : ℚ) :
    roundHalfEven q =
      if 2 * (q.num - q.num / (q.den : ℤ) * (q.den : ℤ)) < (q.den : ℤ) then
        q.num / (q.den : ℤ)
      else if (q.den : ℤ) < 2 * (q.num - q.num / (q.den : ℤ) * (q.den : ℤ)) then
        q.num / (q.den : ℤ) + 1
      else if (q.num / (q.den : ℤ)) % 2 = 0 then q.num / (q.den : ℤ)
      else q.num / (q.den : ℤ) + 1 := rfl

lemma sub_ediv_mul_eq_emod (q : ℚ) :
    q.num - q.num / (q.den : ℤ) * (q.den : ℤ) = q.num % (q.den : ℤ) := by
  have h := Int.ediv_add_emod q.num (q.den : ℤ)
  rw [Int.mul_comm] at h
  linarith

lemma num_le_of_le_intCast {q : ℚ} {n : ℤ} (h : q ≤ (n : ℚ)) :
    q.num ≤ n * (q.den : ℤ) := by
  have h2 := Rat.le_def.mp h
  simpa using h2

lemma roundHalfEven_nonneg {q : ℚ} (h : 0 ≤ q) : 0 ≤ roundHalfEven q := by
  have hden : (0 : ℤ) < (q.den : ℤ) := Int.natCast_pos.mpr q.pos
  have hf : 0 ≤ q.num / (q.den : ℤ) :=
    Int.ediv_nonneg (Rat.num_nonneg.mpr h) hden.le
  rw [roundHalfEven_def]
  split_ifs <;> linarith

lemma roundHalfEven_le_intCast {q : ℚ} {n : ℤ} (h : q ≤ (n : ℚ)) :
    roundHalfEven q ≤ n := by
  have hden : (0 : ℤ) < (q.den : ℤ) := Int.natCast_pos.mpr q.pos
  have hnum : q.num ≤ n * (q.den : ℤ) := num_le_of_le_intCast h
  have hfle : q.num / (q.den : ℤ) ≤ n := by
    calc q.num / (q.den : ℤ) ≤ n * (q.den : ℤ) / (q.den : ℤ) :=
          Int.ediv_le_ediv hden hnum
    _ = n := Int.mul_ediv_cancel n hden.ne'
  have hr := sub_ediv_mul_eq_emod q
  have hm0 : 0 ≤ q.num % (q.den : ℤ) := Int.emod_nonneg _ hden.ne'
  have hstrict : 0 < q.num % (q.den : ℤ) → q.num / (q.den : ℤ) < n := by
    intro hm
    by_contra hc
    push_neg at hc
    have h1 : n * (q.den : ℤ) ≤ q.num / (q.den : ℤ) * (q.den : ℤ) :=
      mul_le_mul_of_nonneg_right hc hden.le
    linarith
  rw [roundHalfEven_def]
  split_ifs with h1 h2 h3
  · exact hfle
  · rw [hr] at h2
    have := hstrict (by linarith)
    linarith
  · exact hfle
  · rw [hr] at h1
    push_neg at h1
    have := hstrict (by linarith)
    linarith

lemma round2_nonneg {q : ℚ} (h : 0 ≤ q) : 0 ≤ round2 q := by
  unfold round2
  have h1 : (0 : ℤ) ≤ roundHalfEven (q * 100) :=
    roundHalfEven_nonneg (by positivity)
  exact div_nonneg (by exact_mod_cast h1) (by norm_num)

lemma round2_le_hundred {q : ℚ} (h : q ≤ 100) : round2 q ≤ 100 := by
  unfold round2
  have h1 : q * 100 ≤ ((10000 : ℤ) : ℚ) := by push_cast; linarith
  have h2 : roundHalfEven (q * 100) ≤ 10000 := roundHalfEven_le_intCast h1
  rw [div_le_iff₀ (by norm_num : (0 : ℚ) < 100)]
  calc ((roundHalfEven (q * 100) : ℤ) : ℚ) ≤ ((10000 : ℤ) : ℚ) := by
        exact_mod_cast h2
  _ = 100 * 100 := by norm_num

/-- The congestion-rate expression shared by the group rows and the TOTAL
row stays in `[0, 100]` whenever the pending count is nonnegative. -/
lemma rate_bounds (p : ℤ) (b : ℕ) (hp : 0 ≤ p) :
    0 ≤ (if 0 < (p : ℚ) + (b : ℚ) then
          round2 ((p : ℚ) / ((p : ℚ) + (b : ℚ)) * 100) else 0) ∧
    (if 0 < (p : ℚ) + (b : ℚ) then
          round2 ((p : ℚ) / ((p : ℚ) + (b : ℚ)) * 100) else 0) ≤ 100 := by
  have hpq : (0 : ℚ) ≤ (p : ℚ) := by exact_mod_cast hp
  have hbq : (0 : ℚ) ≤ (b : ℚ) := by positivity
  split_ifs with hpos
  · constructor
    · exact round2_nonneg (by positivity)
    · apply round2_le_hundred
      have hd1 : (p : ℚ) / ((p : ℚ) + (b : ℚ)) ≤ 1 :=
        (div_le_one hpos).mpr (by linarith)
      linarith
  · norm_num

lemma mkRow_taxa (dff : List CaseRecord) (ano : Int) (key : String × String) :
    (mkRow dff ano key).taxa =
      if 0 < ((mkRow dff ano key).pendentes : ℚ) + ((mkRow dff ano key).baixados : ℚ)
      then
        round2 (((mkRow dff ano key).pendentes : ℚ) /
          (((mkRow dff ano key).pendentes : ℚ) +
            ((mkRow dff ano key).baixados : ℚ)) * 100)
      else 0 := rfl

lemma totalRow_taxa (rows : List StatRow) :
    (totalRow rows).taxa =
      if 0 < ((totalRow rows).pendentes : ℚ) + ((totalRow rows).baixados : ℚ)
      then
        round2 (((totalRow rows).pendentes : ℚ) /
          (((totalRow rows).pendentes : ℚ) + ((totalRow rows).baixados : ℚ)) * 100)
      else 0 := rfl

lemma calc_eq_of_ne_nil {records : List CaseRecord} {comarca : String}
    {ano : Int} (h : calcular_estatisticas records comarca ano ≠ []) :
    calcular_estatisticas records comarca ano =
      statRows records comarca ano ++ [totalRow (statRows records comarca ano)] := by
  unfold calcular_estatisticas at h ⊢
  split_ifs at h ⊢ <;> first | rfl | exact absurd rfl h

lemma mem_statRows {records : List CaseRecord} {comarca : String} {ano : Int}
    {row : StatRow} (h : row ∈ statRows records comarca ano) :
    ∃ key ∈ groupKeys (windowFilter records comarca) ano,
      row = mkRow (windowFilter records comarca) ano key := by
  obtain ⟨key, hk, hrow⟩ := List.mem_map.mp h
  exact ⟨key, hk, hrow.symm⟩

lemma mkRow_pendentes_nonneg (dff : List CaseRecord) (ano : Int)
    (key : String × String) : 0 ≤ (mkRow dff ano key).pendentes := by
  show 0 ≤ clip0 _
  unfold clip0
  split_ifs <;> omega

lemma totalRow_pendentes_nonneg {records : List CaseRecord} {comarca : String}
    {ano : Int} : 0 ≤ (totalRow (statRows records comarca ano)).pendentes := by
  show 0 ≤ ((statRows records comarca ano).map (·.pendentes)).sum
  apply List.sum_nonneg
  intro x hx
  obtain ⟨row, hrow, hx⟩ := List.mem_map.mp hx
  obtain ⟨key, _, hkey⟩ := mem_statRows hrow
  subst hkey
  rw [← hx]
  exact mkRow_pendentes_nonneg _ _ _

lemma clip0_eq_max (x : Int) : clip0 x = max x 0 := by
  unfold clip0
  split_ifs with h
  · exact (max_eq_right h.le).symm
  · exact (max_eq_left (not_lt.mp h)).symm

lemma obter_eq_of_ne_nil {rows : List PreRow} {comarca : String} {ano : Int}
    (h : obter_dados_filtrados rows comarca ano ≠ []) :
    obter_dados_filtrados rows comarca ano =
      aprRows rows comarca ano ++ [totalApr (aprRows rows comarca ano)] := by
  unfold obter_dados_filtrados at h ⊢
  split_ifs at h ⊢ <;> first | rfl | exact absurd rfl h

lemma totalApr_taxa (apr : List AprRow) :
    (totalApr apr).taxa =
      if 0 < (totalApr apr).pendentes + (totalApr apr).baixados then
        round2 ((totalApr apr).pendentes /
          ((totalApr apr).pendentes + (totalApr apr).baixados) * 100)
      else 0 := rfl

/-! ### Claim theorems -/

/-- C1: for every group row and the TOTAL row produced by
`calcular_estatisticas`, the congestion rate equals
`Pending / (Pending + ResolvedInYear) * 100` rounded to 2 decimals when
`Pending + ResolvedInYear > 0`, and is exactly `0` when the denominator is
`0`. The rate is a total function of the row's own counts — the
zero-denominator branch is explicit, so no division-by-zero fault exists. -/
theorem C1_rate_formula (records : List CaseRecord) (comarca : String)
    (ano : Int) (row : StatRow)
    (h : row ∈ calcular_estatisticas records comarca ano) :
    row.taxa =
      if 0 < (row.pendentes : ℚ) + (row.baixados : ℚ) then
        round2 ((row.pendentes : ℚ) /
          ((row.pendentes : ℚ) + (row.baixados : ℚ)) * 100)
      else 0 := by
  have hne : calcular_estatisticas records comarca ano ≠ [] := by
    intro hnil
    rw [hnil] at h
    exact absurd h (List.not_mem_nil row)
  rw [calc_eq_of_ne_nil hne] at h
  rcases List.mem_append.mp h with h1 | h2
  · obtain ⟨key, _, hkey⟩ := mem_statRows h1
    subst hkey
    exact mkRow_taxa _ _ _
  · rw [List.mem_singleton.mp h2]
    exact totalRow_taxa _

/-- Witness for C1 at a one-record store: the group row `(1, 0, 1, 100)` of
comarca `A`, area `a`, satisfies the rate formula. -/
theorem C1_rate_formula_witness :
    (⟨"a", "A", 1, 0, 1, 100⟩ : StatRow).taxa =
      if 0 < ((⟨"a", "A", 1, 0, 1, 100⟩ : StatRow).pendentes : ℚ) +
          ((⟨"a", "A", 1, 0, 1, 100⟩ : StatRow).baixados : ℚ) then
        round2 (((⟨"a", "A", 1, 0, 1, 100⟩ : StatRow).pendentes : ℚ) /
          (((⟨"a", "A", 1, 0, 1, 100⟩ : StatRow).pendentes : ℚ) +
            ((⟨"a", "A", 1, 0, 1, 100⟩ : StatRow).baixados : ℚ)) * 100)
      else 0 :=
  C1_rate_formula [⟨1, "A", "s", "a", some ⟨2021, 3, 1⟩, none⟩] "A" 2021 _
    (by with_unfolding_all decide)

/-- C2: every group row of `calcular_estatisticas` has
`Pending = max(DistributedCum − ResolvedCum, 0)` for its own group and is
never negative, even when the cumulative resolved exceed the cumulative
distributed. -/
theorem C2_pendentes_clipped (records : List CaseRecord) (comarca : String)
    (ano : Int) (row : StatRow)
    (h : row ∈ (calcular_estatisticas records comarca ano).dropLast) :
    row.pendentes =
      max ((countDistAcum (groupOf (windowFilter records comarca)
            (row.nome_area_acao, row.comarca)) ano : Int) -
        (countBaixAcum (groupOf (windowFilter records comarca)
            (row.nome_area_acao, row.comarca)) ano : Int)) 0 ∧
    0 ≤ row.pendentes := by
  have hne : calcular_estatisticas records comarca ano ≠ [] := by
    intro hnil
    rw [hnil] at h
    exact absurd h (List.not_mem_nil row)
  rw [calc_eq_of_ne_nil hne, List.dropLast_concat] at h
  obtain ⟨key, _, hkey⟩ := mem_statRows h
  subst hkey
  exact ⟨clip0_eq_max _, mkRow_pendentes_nonneg _ _ _⟩

/-- Witness for C2 on the clip-at-zero fixture of the spec: 3 cases
distributed by 2021 and 5 resolved cumulatively by 2021 in group
`(x, A)` give `Pending = 0`, not `-2`. -/
theorem C2_pendentes_clipped_witness :
    (⟨"x", "A", 0, 2, 0, 0⟩ : StatRow) ∈
      (calcular_estatisticas
        [⟨1, "A", "s", "x", some ⟨2020, 1, 5⟩, some ⟨2020, 7, 1⟩⟩,
         ⟨2, "A", "s", "x", some ⟨2020, 2, 5⟩, some ⟨2020, 8, 1⟩⟩,
         ⟨3, "A", "s", "x", some ⟨2020, 3, 5⟩, some ⟨2020, 9, 1⟩⟩,
         ⟨4, "A", "s", "x", some ⟨2022, 1, 5⟩, some ⟨2021, 7, 1⟩⟩,
         ⟨5, "A", "s", "x", some ⟨2022, 2, 5⟩, some ⟨2021, 8, 1⟩⟩] "A" 2021).dropLast ∧
    ((⟨"x", "A", 0, 2, 0, 0⟩ : StatRow).pendentes =
      max ((countDistAcum (groupOf (windowFilter
            [⟨1, "A", "s", "x", some ⟨2020, 1, 5⟩, some ⟨2020, 7, 1⟩⟩,
             ⟨2, "A", "s", "x", some ⟨2020, 2, 5⟩, some ⟨2020, 8, 1⟩⟩,
             ⟨3, "A", "s", "x", some ⟨2020, 3, 5⟩, some ⟨2020, 9, 1⟩⟩,
             ⟨4, "A", "s", "x", some ⟨2022, 1, 5⟩, some ⟨2021, 7, 1⟩⟩,
             ⟨5, "A", "s", "x", some ⟨2022, 2, 5⟩, some ⟨2021, 8, 1⟩⟩] "A")
            ("x", "A")) 2021 : Int) -
        (countBaixAcum (groupOf (windowFilter
            [⟨1, "A", "s", "x", some ⟨2020, 1, 5⟩, some ⟨2020, 7, 1⟩⟩,
             ⟨2, "A", "s", "x", some ⟨2020, 2, 5⟩, some ⟨2020, 8, 1⟩⟩,
             ⟨3, "A", "s", "x", some ⟨2020, 3, 5⟩, some ⟨2020, 9, 1⟩⟩,
             ⟨4, "A", "s", "x", some ⟨2022, 1, 5⟩, some ⟨2021, 7, 1⟩⟩,
             ⟨5, "A", "s", "x", some ⟨2022, 2, 5⟩, some ⟨2021, 8, 1⟩⟩] "A")
            ("x", "A")) 2021 : Int)) 0 ∧
      0 ≤ (⟨"x", "A", 0, 2, 0, 0⟩ : StatRow).pendentes) ∧
    (⟨"x", "A", 0, 2, 0, 0⟩ : StatRow).pendentes = 0 :=
  ⟨by with_unfolding_all decide,
   C2_pendentes_clipped _ "A" 2021 _ (by with_unfolding_all decide),
   by decide⟩

/-- C6: `calcular_estatisticas` degrades to the empty table — and raises
nothing, being a total function — when the store is empty, when the comarca
has no records, or when no record of the comarca falls inside the
reliability window. -/
theorem C6_empty_inputs (records : List CaseRecord) (comarca : String)
    (ano : Int) :
    (records = [] → calcular_estatisticas records comarca ano = []) ∧
    (dfComarca records comarca = [] →
      calcular_estatisticas records comarca ano = []) ∧
    (windowFilter records comarca = [] →
      calcular_estatisticas records comarca ano = []) := by
  refine ⟨fun h => ?_, fun h => ?_, fun h => ?_⟩
  · subst h
    rfl
  · unfold calcular_estatisticas
    split_ifs with h1 h2 h3 <;> try rfl
    exact absurd (by simp [h]) h2
  · unfold calcular_estatisticas
    split_ifs with h1 h2 h3 <;> try rfl
    exact absurd (by simp [h]) h3

/-- Witness for C6: the three degenerate inputs — empty store, a store
with only another comarca, a store whose only record of the comarca
predates the window — all yield the empty table. -/
theorem C6_empty_inputs_witness :
    calcular_estatisticas [] "A" 2021 = [] ∧
    calcular_estatisticas [⟨1, "B", "s", "a", some ⟨2021, 3, 1⟩, none⟩]
      "A" 2021 = [] ∧
    calcular_estatisticas [⟨1, "A", "s", "a", some ⟨2019, 3, 1⟩, none⟩]
      "A" 2021 = [] :=
  ⟨(C6_empty_inputs [] "A" 2021).1 rfl,
   (C6_empty_inputs _ "A" 2021).2.1 (by with_unfolding_all decide),
   (C6_empty_inputs _ "A" 2021).2.2 (by with_unfolding_all decide)⟩

/-- C9: every row of every result of `calcular_estatisticas` (group rows
and the TOTAL row alike) has a nonnegative pending count and a congestion
rate inside `[0, 100]`. -/
theorem C9_bounds (records : List CaseRecord) (comarca : String) (ano : Int)
    (row : StatRow) (h : row ∈ calcular_estatisticas records comarca ano) :
    0 ≤ row.pendentes ∧ 0 ≤ row.taxa ∧ row.taxa ≤ 100 := by
  have hne : calcular_estatisticas records comarca ano ≠ [] := by
    intro hnil
    rw [hnil] at h
    exact absurd h (List.not_mem_nil row)
  rw [calc_eq_of_ne_nil hne] at h
  rcases List.mem_append.mp h with h1 | h2
  · obtain ⟨key, _, hkey⟩ := mem_statRows h1
    subst hkey
    have hp := mkRow_pendentes_nonneg (windowFilter records comarca) ano key
    refine ⟨hp, ?_, ?_⟩
    · rw [mkRow_taxa]
      exact (rate_bounds _ _ hp).1
    · rw [mkRow_taxa]
      exact (rate_bounds _ _ hp).2
  · rw [List.mem_singleton.mp h2]
    have hp : 0 ≤ (totalRow (statRows records comarca ano)).pendentes :=
      totalRow_pendentes_nonneg
    refine ⟨hp, ?_, ?_⟩
    · rw [totalRow_taxa]
      exact (rate_bounds _ _ hp).1
    · rw [totalRow_taxa]
      exact (rate_bounds _ _ hp).2

/-- Witness for C9: the bounds hold for the group row of a one-record
store. -/
theorem C9_bounds_witness :
    0 ≤ (⟨"a", "A", 1, 0, 1, 100⟩ : StatRow).pendentes ∧
    0 ≤ (⟨"a", "A", 1, 0, 1, 100⟩ : StatRow).taxa ∧
    (⟨"a", "A", 1, 0, 1, 100⟩ : StatRow).taxa ≤ 100 :=
  C9_bounds [⟨1, "A", "s", "a", some ⟨2021, 3, 1⟩, none⟩] "A" 2021 _
    (by with_unfolding_all decide)

/-- C10: pending is clipped per group before the TOTAL row sums it, so the
TOTAL pending can strictly exceed the clipped jurisdiction-wide difference
of the cumulative flows: with one open 2021 case in area `a` and one 2022
case of area `b` resolved back in 2021, the TOTAL row reports
`Pendentes = 1` while `max(ΣDistCum − ΣBaixCum, 0) = max(1 − 1, 0) = 0`. -/
theorem C10_clip_before_sum :
    (calcular_estatisticas
        [⟨1, "A", "s", "a", some ⟨2021, 3, 1⟩, none⟩,
         ⟨2, "A", "s", "b", some ⟨2022, 5, 1⟩, some ⟨2021, 4, 1⟩⟩]
        "A" 2021).getLast? = some ⟨"TOTAL", "", 1, 1, 1, 50⟩ ∧
    clip0 ((countDistAcum (windowFilter
        [⟨1, "A", "s", "a", some ⟨2021, 3, 1⟩, none⟩,
         ⟨2, "A", "s", "b", some ⟨2022, 5, 1⟩, some ⟨2021, 4, 1⟩⟩] "A") 2021 : Int) -
      (countBaixAcum (windowFilter
        [⟨1, "A", "s", "a", some ⟨2021, 3, 1⟩, none⟩,
         ⟨2, "A", "s", "b", some ⟨2022, 5, 1⟩, some ⟨2021, 4, 1⟩⟩] "A") 2021 : Int)) = 0 ∧
    clip0 ((countDistAcum (windowFilter
        [⟨1, "A", "s", "a", some ⟨2021, 3, 1⟩, none⟩,
         ⟨2, "A", "s", "b", some ⟨2022, 5, 1⟩, some ⟨2021, 4, 1⟩⟩] "A") 2021 : Int) -
      (countBaixAcum (windowFilter
        [⟨1, "A", "s", "a", some ⟨2021, 3, 1⟩, none⟩,
         ⟨2, "A", "s", "b", some ⟨2022, 5, 1⟩, some ⟨2021, 4, 1⟩⟩] "A") 2021 : Int)) <
      (⟨"TOTAL", "", 1, 1, 1, 50⟩ : StatRow).pendentes := by
  refine ⟨?_, ?_, ?_⟩ <;> with_unfolding_all decide

/-- C4: the Annual-Flow policy (modelled from spec §4.2, its implementation
not being under `src/`): `Pending(Y)` counts exactly the records with
`distribution_year == Y` and an absent resolution date, and the spec's
end-to-end scenario — jurisdiction `X`, year 2021, 10 records distributed
in 2021 of which 4 still open and 6 resolved in 2021 — yields
`Distributed = 10, Resolved = 6, Pending = 4, rate = 40.00`. -/
theorem C4_annual_flow :
    (∀ (records : List CaseRecord) (comarca : String) (ano : Int),
      (annualFlow records comarca ano).pending =
        ((dfComarca records comarca).filter
          (fun r => distYearEq r ano && r.data_baixa.isNone)).length) ∧
    annualFlow
      [⟨1, "X", "s", "a", some ⟨2021, 1, 1⟩, none⟩,
       ⟨2, "X", "s", "a", some ⟨2021, 1, 2⟩, none⟩,
       ⟨3, "X", "s", "a", some ⟨2021, 1, 3⟩, none⟩,
       ⟨4, "X", "s", "a", some ⟨2021, 1, 4⟩, none⟩,
       ⟨5, "X", "s", "a", some ⟨2021, 2, 1⟩, some ⟨2021, 3, 1⟩⟩,
       ⟨6, "X", "s", "a", some ⟨2021, 2, 2⟩, some ⟨2021, 3, 2⟩⟩,
       ⟨7, "X", "s", "a", some ⟨2021, 2, 3⟩, some ⟨2021, 3, 3⟩⟩,
       ⟨8, "X", "s", "a", some ⟨2021, 2, 4⟩, some ⟨2021, 3, 4⟩⟩,
       ⟨9, "X", "s", "a", some ⟨2021, 2, 5⟩, some ⟨2021, 3, 5⟩⟩,
       ⟨10, "X", "s", "a", some ⟨2021, 2, 6⟩, some ⟨2021, 3, 6⟩⟩] "X" 2021 =
      ⟨10, 6, 4, 40⟩ := by
  constructor
  · intro records comarca ano
    rfl
  · with_unfolding_all decide

/-- C3: in every non-empty result — of the raw-event path
`calcular_estatisticas` and of the pre-aggregated path
`obter_dados_filtrados` alike — the last row is the TOTAL row, its
distributed/resolved/pending are exactly the column-wise sums of all other
rows, and its congestion rate is recomputed from those summed values
(hence never an average of per-row rates). -/
theorem C3_total_row :
    (∀ (records : List CaseRecord) (comarca : String) (ano : Int),
      calcular_estatisticas records comarca ano ≠ [] →
      ∃ t, (calcular_estatisticas records comarca ano).getLast? = some t ∧
        t.nome_area_acao = "TOTAL" ∧
        t.distribuidos =
          (((calcular_estatisticas records comarca ano).dropLast).map
            (·.distribuidos)).sum ∧
        t.baixados =
          (((calcular_estatisticas records comarca ano).dropLast).map
            (·.baixados)).sum ∧
        t.pendentes =
          (((calcular_estatisticas records comarca ano).dropLast).map
            (·.pendentes)).sum ∧
        t.taxa =
          (if 0 < (t.pendentes : ℚ) + (t.baixados : ℚ) then
            round2 ((t.pendentes : ℚ) /
              ((t.pendentes : ℚ) + (t.baixados : ℚ)) * 100)
          else 0)) ∧
    (∀ (rows : List PreRow) (comarca : String) (ano : Int),
      obter_dados_filtrados rows comarca ano ≠ [] →
      ∃ t, (obter_dados_filtrados rows comarca ano).getLast? = some t ∧
        t.serventia = "TOTAL" ∧
        t.distribuidos =
          (((obter_dados_filtrados rows comarca ano).dropLast).map
            (·.distribuidos)).sum ∧
        t.baixados =
          (((obter_dados_filtrados rows comarca ano).dropLast).map
            (·.baixados)).sum ∧
        t.pendentes =
          (((obter_dados_filtrados rows comarca ano).dropLast).map
            (·.pendentes)).sum ∧
        t.taxa =
          (if 0 < t.pendentes + t.baixados then
            round2 (t.pendentes / (t.pendentes + t.baixados) * 100)
          else 0)) := by
  constructor
  · intro records comarca ano h
    rw [calc_eq_of_ne_nil h, List.getLast?_concat, List.dropLast_concat]
    exact ⟨totalRow (statRows records comarca ano), rfl, rfl, rfl, rfl, rfl,
      totalRow_taxa _⟩
  · intro rows comarca ano h
    rw [obter_eq_of_ne_nil h, List.getLast?_concat, List.dropLast_concat]
    exact ⟨totalApr (aprRows rows comarca ano), rfl, rfl, rfl, rfl, rfl,
      totalApr_taxa _⟩

/-- Witness for C3, instantiated at one-record inputs of each path. -/
theorem C3_total_row_witness :
    (∃ t, (calcular_estatisticas
        [⟨1, "A", "s", "a", some ⟨2021, 3, 1⟩, none⟩] "A" 2021).getLast? =
          some t ∧
      t.nome_area_acao = "TOTAL" ∧
      t.distribuidos =
        (((calcular_estatisticas
          [⟨1, "A", "s", "a", some ⟨2021, 3, 1⟩, none⟩] "A" 2021).dropLast).map
          (·.distribuidos)).sum ∧
      t.baixados =
        (((calcular_estatisticas
          [⟨1, "A", "s", "a", some ⟨2021, 3, 1⟩, none⟩] "A" 2021).dropLast).map
          (·.baixados)).sum ∧
      t.pendentes =
        (((calcular_estatisticas
          [⟨1, "A", "s", "a", some ⟨2021, 3, 1⟩, none⟩] "A" 2021).dropLast).map
          (·.pendentes)).sum ∧
      t.taxa =
        (if 0 < (t.pendentes : ℚ) + (t.baixados : ℚ) then
          round2 ((t.pendentes : ℚ) /
            ((t.pendentes : ℚ) + (t.baixados : ℚ)) * 100)
        else 0)) ∧
    (∃ t, (obter_dados_filtrados
        [⟨2021, "A", "s1", 2, 1, 1, 50⟩] "A" 2021).getLast? = some t ∧
      t.serventia = "TOTAL" ∧
      t.distribuidos =
        (((obter_dados_filtrados
          [⟨2021, "A", "s1", 2, 1, 1, 50⟩] "A" 2021).dropLast).map
          (·.distribuidos)).sum ∧
      t.baixados =
        (((obter_dados_filtrados
          [⟨2021, "A", "s1", 2, 1, 1, 50⟩] "A" 2021).dropLast).map
          (·.baixados)).sum ∧
      t.pendentes =
        (((obter_dados_filtrados
          [⟨2021, "A", "s1", 2, 1, 1, 50⟩] "A" 2021).dropLast).map
          (·.pendentes)).sum ∧
      t.taxa =
        (if 0 < t.pendentes + t.baixados then
          round2 (t.pendentes / (t.pendentes + t.baixados) * 100)
        else 0)) :=
  ⟨C3_total_row.1 [⟨1, "A", "s", "a", some ⟨2021, 3, 1⟩, none⟩] "A" 2021
      (by with_unfolding_all decide),
   C3_total_row.2 [⟨2021, "A", "s1", 2, 1, 1, 50⟩] "A" 2021
      (by with_unfolding_all decide)⟩

section FilterLemmas

variable {α : Type}

lemma filter_swap (p q : α → Bool) (l : List α) :
    (l.filter p).filter q = (l.filter q).filter p := by
  induction l with
  | nil => rfl
  | cons r t ih =>
    by_cases hp : p r <;> by_cases hq : q r <;>
      simp [List.filter_cons, hp, hq, ih]

lemma filter_self (p : α → Bool) (l : List α) :
    (l.filter p).filter p = l.filter p := by
  induction l with
  | nil => rfl
  | cons r t ih =>
    by_cases hp : p r <;> simp [List.filter_cons, hp, ih]

lemma isEmpty_filter_of_isEmpty (p : α → Bool) {l : List α}
    (h : l.isEmpty) : (l.filter p).isEmpty := by
  cases l with
  | nil => rfl
  | cons r t => cases h

end FilterLemmas

/-- C5 counterexample: on a 2020–2023 fixture whose distribution and
resolution activity falls only in 2021 and 2023, the series builder emits
3 points, not 2 — the year 2022, with zero in-year activity, still gets a
point because the cumulative pending stock is positive. -/
theorem C5_counterexample :
    (∀ r ∈ cexSeries,
      distYearEq r 2022 = false ∧ baixaYearEq r 2022 = false) ∧
    (dadosGrafico cexSeries "c").length = 3 ∧
    (⟨2022, "a", 100⟩ : SeriesPoint) ∈ dadosGrafico cexSeries "c" := by
  refine ⟨?_, ?_, ?_⟩ <;> with_unfolding_all decide

/-- C5 as amended: a (group, year) point is emitted only when the
cumulative `Pending > 0` or the in-year `ResolvedInYear > 0`; equivalently,
a group-year with zero cumulative pending and zero in-year resolutions
produces no point (zero in-year activity alone does not suppress a point).
A 2020–2023 fixture whose activity falls only in 2021 and 2023 and whose
cases resolve within their own year yields exactly the 2 points 2021 and
2023. -/
theorem C5_emission :
    (∀ (records : List CaseRecord) (comarca : String) (p : SeriesPoint),
      p ∈ dadosGrafico records comarca →
      0 < pendAt (windowC records comarca) p.nome_area_acao p.ano ∨
        0 < countBaixAno
          (groupArea (windowC records comarca) p.nome_area_acao) p.ano) ∧
    dadosGrafico
      [⟨1, "c", "s", "a", some ⟨2021, 2, 3⟩, some ⟨2021, 5, 5⟩⟩,
       ⟨2, "c", "s", "a", some ⟨2023, 6, 7⟩, some ⟨2023, 8, 9⟩⟩] "c" =
      [⟨2021, "a", 0⟩, ⟨2023, "a", 0⟩] := by
  constructor
  · intro records comarca p h
    unfold dadosGrafico at h
    obtain ⟨area, _, hp⟩ := List.mem_flatMap.mp h
    unfold pointsFor at hp
    obtain ⟨ano, _, hsome⟩ := List.mem_filterMap.mp hp
    split at hsome
    · next hcond =>
      cases hsome
      simpa using hcond
    · cases hsome
  · with_unfolding_all decide

/-- Witness for C5 as amended: the emitted 2022 point of the
counterexample fixture indeed has positive cumulative pending. -/
theorem C5_emission_witness :
    0 < pendAt (windowC cexSeries "c") "a" 2022 ∨
      0 < countBaixAno (groupArea (windowC cexSeries "c") "a") 2022 :=
  C5_emission.1 cexSeries "c" ⟨2022, "a", 100⟩ (by with_unfolding_all decide)

/-- C7: records whose distribution date precedes the window start
(2020-01-01) are excluded entirely from every count of the cumulative-stock
policy: both the statistics table and the whole time series are unchanged
when the store is reduced to its in-window records. -/
theorem C7_window_invariance (records : List CaseRecord) (comarca : String)
    (ano : Int) :
    calcular_estatisticas records comarca ano =
      calcular_estatisticas (records.filter inWindow) comarca ano ∧
    dadosGrafico records comarca =
      dadosGrafico (records.filter inWindow) comarca := by
  have hdfc : dfComarca (records.filter inWindow) comarca =
      windowFilter records comarca :=
    filter_swap inWindow (fun r => r.comarca == comarca) records
  have hwf : windowFilter (records.filter inWindow) comarca =
      windowFilter records comarca := by
    show (dfComarca (records.filter inWindow) comarca).filter inWindow = _
    rw [hdfc]
    exact filter_self inWindow (dfComarca records comarca)
  constructor
  · by_cases h3 : (windowFilter records comarca).isEmpty
    · have lhs : calcular_estatisticas records comarca ano = [] := by
        unfold calcular_estatisticas
        split_ifs <;> rfl
      have rhs : calcular_estatisticas (records.filter inWindow) comarca ano
          = [] := by
        unfold calcular_estatisticas
        split_ifs with a b c <;> first | rfl | (rw [hwf] at c; exact absurd h3 c)
      rw [lhs, rhs]
    · have hdfcne : ¬(dfComarca records comarca).isEmpty := by
        intro hd
        exact h3 (isEmpty_filter_of_isEmpty inWindow hd)
      have hrne : ¬records.isEmpty := by
        intro hr
        exact hdfcne (isEmpty_filter_of_isEmpty _ hr)
      have h3w : ¬(windowFilter (records.filter inWindow) comarca).isEmpty := by
        rw [hwf]
        exact h3
      have hdfcne2 : ¬(dfComarca (records.filter inWindow) comarca).isEmpty := by
        intro hd
        exact h3w (isEmpty_filter_of_isEmpty inWindow hd)
      have hrne2 : ¬(records.filter inWindow).isEmpty := by
        intro hr
        exact hdfcne2 (isEmpty_filter_of_isEmpty _ hr)
      have hstat : statRows (records.filter inWindow) comarca ano =
          statRows records comarca ano := by
        unfold statRows
        rw [hwf]
      unfold calcular_estatisticas
      rw [if_neg hrne, if_neg hdfcne, if_neg h3, if_neg hrne2, if_neg hdfcne2,
        if_neg h3w, hstat]
  · have h1 : (records.filter inWindow).filter
        (fun r => normStr r.comarca == normStr comarca) =
        (records.filter (fun r => normStr r.comarca == normStr comarca)).filter
          inWindow :=
      filter_swap _ _ records
    have hwc : windowC (records.filter inWindow) comarca =
        windowC records comarca := by
      show ((records.filter inWindow).filter _).filter inWindow = _
      rw [h1]
      exact filter_self inWindow _
    unfold dadosGrafico
    rw [hwc]

/-- C8 counterexample: with exactly one distinct year with data (fewer
than 2), the builder returns a single-point chart, not the
"insufficient data" signal — the signal fires only when the point list is
empty. -/
theorem C8_counterexample :
    (((windowC cexOneYear "c").filterMap
        (fun r => r.data_distribuicao.map (·.year))) ++
      ((windowC cexOneYear "c").filterMap
        (fun r => r.data_baixa.map (·.year)))).dedup.length = 1 ∧
    plotar_graficos_comarca cexOneYear "c" = .grafico [⟨2020, "a", 0⟩] ∧
    plotar_graficos_comarca cexOneYear "c" ≠ .dadosInsuficientes := by
  refine ⟨?_, ?_, ?_⟩ <;> with_unfolding_all decide

/-- C8 as amended: the "insufficient data" signal is returned exactly when
the comarca has in-window records but the computed point list is empty —
not whenever fewer than 2 distinct years have data. -/
theorem C8_insufficient_iff (records : List CaseRecord) (comarca : String) :
    plotar_graficos_comarca records comarca = .dadosInsuficientes ↔
      (windowC records comarca ≠ [] ∧ dadosGrafico records comarca = []) := by
  unfold plotar_graficos_comarca
  split_ifs with h1 h2 h3 h4
  · have hr : records = [] := by
      cases records with
      | nil => rfl
      | cons r t => cases h1
    subst hr
    simp [windowC]
  · have hwc : windowC records comarca = [] := by
      unfold windowC
      cases hfc : records.filter
          (fun r => normStr r.comarca == normStr comarca) with
      | nil => rfl
      | cons r t =>
        rw [hfc] at h2
        cases h2
    simp [hwc]
  · have hwc : windowC records comarca = [] := by
      cases hw : windowC records comarca with
      | nil => rfl
      | cons r t =>
        rw [hw] at h3
        cases h3
    simp [hwc]
  · have hwc : windowC records comarca ≠ [] := by
      intro hw
      rw [hw] at h3
      exact h3 rfl
    have hdg : dadosGrafico records comarca = [] := by
      cases hd : dadosGrafico records comarca with
      | nil => rfl
      | cons p t =>
        rw [hd] at h4
        cases h4
    simp [hwc, hdg]
  · have hdg : dadosGrafico records comarca ≠ [] := by
      intro hd
      rw [hd] at h4
      exact h4 rfl
    simp [hdg]

/-- Witness for C8 as amended: a store whose only case was opened in 2021
but resolved in 2019 has a nonempty window yet zero points, and the
builder answers with the "insufficient data" signal. -/
theorem C8_insufficient_iff_witness :
    plotar_graficos_comarca
      [⟨1, "c", "s", "a", some ⟨2021, 3, 4⟩, some ⟨2019, 5, 6⟩⟩] "c" =
      .dadosInsuficientes :=
  (C8_insufficient_iff
      [⟨1, "c", "s", "a", some ⟨2021, 3, 4⟩, some ⟨2019, 5, 6⟩⟩] "c").mpr
    ⟨by with_unfolding_all decide, by with_unfolding_all decide⟩

end TxCong
